import Mathlib

/-!
Verification of the agentic-control-plane tool servers.

Shallow embedding of:
  - src/tools/a2a_bridge_server/lib/auth.py   (request identity store, client factory)
  - src/tools/a2a_bridge_server/server.py     (auth middleware, send tool wrappers)
  - src/a2a_bridge_server/lib/a2a.py          (card resolution, unary and streaming send)
  - src/tools/k8s_readonly_server/server.py   (namespace validation of the read-only tools)

Network and library collaborators (httpx, the a2a SDK client, the kubernetes client)
are modelled as explicit environments: functions supplied as parameters that say how
each outbound call would answer.  Python exceptions are modelled with Except.
-/

namespace Bridge

/-- Execution contexts (tasks / coroutines handling one request each), abstracted as
natural-number identifiers. -/
abbrev Ctx := Nat

/-- Model of the module-level `_current_token = contextvars.ContextVar('current_token',
default=None)` of auth.py line 21: a contextvars.ContextVar holds one value per
execution context (the spec calls it an execution-context-keyed map), so the store is
a map from context to the optional token, defaulting to none. -/
def ContextStore := Ctx → Option String

/-- The store before any request has set a token: every context reads the default none. -/
def emptyStore : ContextStore := fun _ => Option.none

/-- set_auth_context of auth.py lines 24-31: `_current_token.set(token)` updates the
value seen by the current execution context only. -/
def set_auth_context (c : Ctx) (token : Option String) (s : ContextStore) : ContextStore :=
  fun c2 => if c2 = c then token else s c2

/-- Reading `_current_token.get()` in execution context c. -/
def getToken (s : ContextStore) (c : Ctx) : Option String := s c

/-- Python truthiness of an optional string: None and the empty string are falsy. -/
def pyTruthyStr : Option String → Bool
  | Option.none => false
  | Option.some s => s != ""

/-- Result of Kubernetes client construction in auth.py: either an ApiClient whose
configuration carries the supplied JWT as a Bearer credential
(create_k8s_client_from_token, lines 34-71) or an ApiClient built from the local
kubeconfig / in-cluster config (create_k8s_client_from_kubeconfig, lines 74-80). -/
inductive K8sClient where
  | fromToken (bearer : String)
  | fromKubeconfig
deriving DecidableEq

/-- Message of the ValueError raised by create_k8s_client, auth.py line 98. -/
def identityRequiredMsg : String :=
  "Unable to create kubernetes api client: no JWT token supplied."

/-- create_k8s_client of auth.py lines 82-98: read `_current_token.get()`; if the token
is truthy, build the token-authenticated client; elif not token_auth_only, fall back to
the kubeconfig client; else raise ValueError. -/
def create_k8s_client (s : ContextStore) (c : Ctx) (token_auth_only : Bool) :
    Except String K8sClient :=
  let jwt_token := getToken s c
  if pyTruthyStr jwt_token then
    Except.ok (K8sClient.fromToken (jwt_token.getD ""))
  else if !token_auth_only then
    Except.ok K8sClient.fromKubeconfig
  else
    Except.error identityRequiredMsg

/-- Inbound HTTP request, reduced to its header list (name, value). -/
structure Request where
  headers : List (String × String)

/-- Lower-casing of a header name, character by character. -/
def lowerStr (s : String) : String := String.mk (s.data.map Char.toLower)

/-- Case-insensitive header lookup: Starlette `request.headers.get(name)` matches header
names ignoring case (external collaborator; the spec calls it a case-insensitive
transport header). -/
def headerGet (hs : List (String × String)) (name : String) : Option String :=
  (hs.find? (fun p => lowerStr p.fst == lowerStr name)).map Prod.snd

/-- Python `a or b` on the two header lookups of server.py line 38. -/
def pyOrStr (a b : Option String) : Option String :=
  if pyTruthyStr a then a else b

/-- Token extraction of server.py line 38:
`request.headers.get("x-auth-token") or request.headers.get("X-Auth-Token")`. -/
def extractToken (req : Request) : Option String :=
  pyOrStr (headerGet req.headers "x-auth-token") (headerGet req.headers "X-Auth-Token")

/-- Operations performed on the identity store by the middleware, in order. -/
inductive StoreOp where
  | setEntry (token : Option String)
  | clear
deriving DecidableEq

/-- Outcome of one middleware dispatch: the response (or propagated exception), the
identity store after the request, and the ordered log of store operations. -/
structure DispatchOutcome where
  response : Except String String
  finalStore : ContextStore
  log : List StoreOp

/-- AuthHeaderMiddleware.dispatch of server.py lines 36-49: extract the token from the
case-insensitive header, `auth.set_auth_context(token=token)`, run the wrapped handler
in a try, and in the finally `auth.set_auth_context(None)`; the handler outcome (normal
return or raised exception) propagates either way. -/
def dispatch (s : ContextStore) (c : Ctx) (req : Request)
    (call_next : ContextStore → Except String String) : DispatchOutcome :=
  let token := extractToken req
  let s1 := set_auth_context c token s
  let result := call_next s1
  let s2 := set_auth_context c Option.none s1
  { response := result, finalStore := s2,
    log := [StoreOp.setEntry token, StoreOp.clear] }

/-- Python value occupying the auth_token parameter slot of the a2a library functions.
The library declares `auth_token: Optional[str] = None`, but Python is dynamically
typed and the tool wrapper of server.py line 137 passes its use_extended_card Bool in
that positional slot, so the slot can hold None, a string or a Bool. -/
inductive PyVal where
  | none
  | str (s : String)
  | bool (b : Bool)
deriving DecidableEq

/-- Python truthiness of the auth_token value, as tested by `if (auth_token and ...)`. -/
def PyVal.truthy : PyVal → Bool
  | PyVal.none => false
  | PyVal.str s => s != ""
  | PyVal.bool b => b

/-- Python str() of the auth_token value, as interpolated by the f-string
`f"Bearer {auth_token}"` of a2a.py line 60. -/
def PyVal.interp : PyVal → String
  | PyVal.none => "None"
  | PyVal.str s => s
  | PyVal.bool b => if b then "True" else "False"

/-- AgentCard as used by a2a.py: the supports_authenticated_extended_card flag the
resolution branches on, plus the rest of the card as an opaque payload. -/
structure AgentCard where
  supports_authenticated_extended_card : Bool
  payload : String
deriving DecidableEq

/-- HTTP fetch issued by the card resolver: target path relative to the agent base URL,
plus the extra headers passed through http_kwargs. -/
structure FetchRequest where
  path : String
  headers : List (String × String)
deriving DecidableEq

/-- EXTENDED_AGENT_CARD_PATH of a2a.py line 17. -/
def EXTENDED_AGENT_CARD_PATH : String := "/.well-known/agent.json"

/-- Modelled from the spec: the path used by `resolver.get_agent_card()` with no
relative path (a2a.py line 50) is the A2ACardResolver default, library code outside
this repository; the spec fixes step 1 to fetch "the public descriptor from the
agent's well-known discovery path", the A2A well-known agent-card location. -/
def PUBLIC_AGENT_CARD_PATH : String := "/.well-known/agent.json"

/-- Fetch performed for the public card: well-known path, no extra headers. -/
def publicCardRequest : FetchRequest :=
  { path := PUBLIC_AGENT_CARD_PATH, headers := [] }

/-- Fetch performed for the extended card, a2a.py lines 60-64: relative path
EXTENDED_AGENT_CARD_PATH and http_kwargs headers carrying the Bearer credential. -/
def extendedCardRequest (auth_token : PyVal) : FetchRequest :=
  { path := EXTENDED_AGENT_CARD_PATH,
    headers := [("Authorization", "Bearer " ++ auth_token.interp)] }

/-- Outcome of consuming the peer stream: the chunks produced in arrival order (already
serialized, as json.dumps of chunk.model_dump renders them) and, when the stream
terminates with an error after those chunks, that error. -/
structure StreamOutcome where
  chunks : List String
  streamError : Option String

/-- Network environment of one resolution-and-send operation: how the peer answers card
fetches, unary sends, and streaming sends, for each card a client could be built from
(httpx and the a2a SDK client are external collaborators). -/
structure AgentEnv where
  fetchCard : FetchRequest → Except String AgentCard
  sendUnary : AgentCard → String → Except String String
  stream : AgentCard → String → StreamOutcome

/-- Which card a resolution selected, whether the extended fetch was attempted (the
inner try of a2a.py lines 59-68 was entered), and whether it was the card used. -/
structure Resolution where
  card : AgentCard
  extendedAttempted : Bool
  usedExtended : Bool
deriving DecidableEq

/-- Card-resolution step shared by a2a.py lines 46-71 and 122-148: fetch the public
card (failure is re-raised as the fatal fetch error); if auth_token is truthy and
use_extended_card and the public card declares extended support, try the authenticated
extended fetch, on success selecting the extended card and on any failure silently
keeping the public card. -/
def resolveCard (env : AgentEnv) (agent_url : String) (auth_token : PyVal)
    (use_extended_card : Bool) : Except String Resolution :=
  match env.fetchCard publicCardRequest with
  | Except.error e =>
      Except.error ("Failed to fetch agent card from " ++ agent_url ++ ": " ++ e)
  | Except.ok public_card =>
      if auth_token.truthy && (use_extended_card
          && public_card.supports_authenticated_extended_card) then
        match env.fetchCard (extendedCardRequest auth_token) with
        | Except.ok extended_card =>
            Except.ok { card := extended_card, extendedAttempted := true, usedExtended := true }
        | Except.error _ =>
            Except.ok { card := public_card, extendedAttempted := true, usedExtended := false }
      else
        Except.ok { card := public_card, extendedAttempted := false, usedExtended := false }

/-- Errors of the messaging path: the two distinct exception messages raised by
a2a.py ("Failed to fetch agent card from ..." and "Failed to send ... message ..."),
which the spec names AgentUnreachable and DispatchFailed. -/
inductive A2AError where
  | agentUnreachable (detail : String)
  | dispatchFailed (detail : String)
deriving DecidableEq

/-- Unary send step of a2a.py lines 73-94 with the already-resolved card: build the
client on that card, send, and wrap any failure as the dispatch error. -/
def sendWithCard (env : AgentEnv) (agent_url message : String) (card : AgentCard) :
    Except A2AError String :=
  match env.sendUnary card message with
  | Except.ok resp =>
      Except.ok ("Response from " ++ agent_url ++ ":\n\n" ++ resp)
  | Except.error e =>
      Except.error (A2AError.dispatchFailed ("Failed to send message to agent: " ++ e))

/-- send_message_to_agent of a2a.py lines 20-94. -/
def send_message_to_agent (env : AgentEnv) (agent_url message : String)
    (auth_token : PyVal) (use_extended_card : Bool) : Except A2AError String :=
  match resolveCard env agent_url auth_token use_extended_card with
  | Except.error d => Except.error (A2AError.agentUnreachable d)
  | Except.ok res => sendWithCard env agent_url message res.card

/-- Streaming step of a2a.py lines 167-179 with the already-resolved card: the async
for appends chunks in arrival order; a stream error aborts the whole try block, so
result_chunks is discarded and the dispatch error is raised; on normal completion the
chunks are joined into the single aggregate response. -/
def streamWithCard (env : AgentEnv) (agent_url message : String) (card : AgentCard) :
    Except A2AError String :=
  let outcome := env.stream card message
  match outcome.streamError with
  | Option.some e =>
      Except.error (A2AError.dispatchFailed ("Failed to send streaming message to agent: " ++ e))
  | Option.none =>
      Except.ok ("Streaming response from " ++ agent_url ++ ":\n\n"
        ++ String.intercalate "\n\n" outcome.chunks)

/-- send_streaming_message_to_agent of a2a.py lines 97-179. -/
def send_streaming_message_to_agent (env : AgentEnv) (agent_url message : String)
    (auth_token : PyVal) (use_extended_card : Bool) : Except A2AError String :=
  match resolveCard env agent_url auth_token use_extended_card with
  | Except.error d => Except.error (A2AError.agentUnreachable d)
  | Except.ok res => streamWithCard env agent_url message res.card

/-- send_message_to_agent tool of tools/a2a_bridge_server/server.py lines 120-137.
ctxToken is the token the identity store holds for this request at call time. The
wrapper body is `a2a.send_message_to_agent(agent_url, message, use_extended_card)`:
the Bool use_extended_card is passed in the third positional slot, which is
auth_token, and the library use_extended_card keeps its default False; the stored
token ctxToken is never read. -/
def tool_send_message_to_agent (env : AgentEnv) (_ctxToken : Option String)
    (agent_url message : String) (use_extended_card : Bool) : Except A2AError String :=
  send_message_to_agent env agent_url message (PyVal.bool use_extended_card) false

/-- send_streaming_message_to_agent tool of tools/a2a_bridge_server/server.py lines
140-159: same argument passing, `a2a.send_streaming_message_to_agent(agent_url,
message, use_extended_card)`, so the Bool lands in the auth_token slot and the library
use_extended_card keeps its default False; ctxToken is never read. -/
def tool_send_streaming_message_to_agent (env : AgentEnv) (_ctxToken : Option String)
    (agent_url message : String) (use_extended_card : Bool) : Except A2AError String :=
  send_streaming_message_to_agent env agent_url message (PyVal.bool use_extended_card) false

/-- Public card of the demonstration peer: declares extended-card support. -/
def demoPublicCard : AgentCard :=
  { supports_authenticated_extended_card := true, payload := "public" }

/-- Extended card of the demonstration peer. -/
def demoExtendedCard : AgentCard :=
  { supports_authenticated_extended_card := true, payload := "extended" }

/-- Demonstration peer: public fetch yields demoPublicCard, any authenticated fetch of
the extended path yields demoExtendedCard, and both send styles echo the payload of
whichever card the client was built from. -/
def demoEnv : AgentEnv :=
  { fetchCard := fun req =>
      if req = publicCardRequest then Except.ok demoPublicCard
      else if req.path = EXTENDED_AGENT_CARD_PATH then Except.ok demoExtendedCard
      else Except.error "not found",
    sendUnary := fun card _ => Except.ok card.payload,
    stream := fun card _ => { chunks := [card.payload], streamError := Option.none } }

/-- Demonstration peer whose extended fetch fails: only the public, header-free fetch
succeeds. -/
def demoFailEnv : AgentEnv :=
  { fetchCard := fun req =>
      if req = publicCardRequest then Except.ok demoPublicCard
      else Except.error "HTTP 401",
    sendUnary := fun card _ => Except.ok card.payload,
    stream := fun card _ => { chunks := [card.payload], streamError := Option.none } }

/-- Demonstration peer that is unreachable: every card fetch fails. -/
def demoDownEnv : AgentEnv :=
  { fetchCard := fun _ => Except.error "HTTP 404",
    sendUnary := fun card _ => Except.ok card.payload,
    stream := fun card _ => { chunks := [card.payload], streamError := Option.none } }

/-- Demonstration peer whose stream completes with three chunks. -/
def demoStreamOkEnv : AgentEnv :=
  { fetchCard := fun req =>
      if req = publicCardRequest then Except.ok demoPublicCard
      else Except.error "not found",
    sendUnary := fun card _ => Except.ok card.payload,
    stream := fun _ _ => { chunks := ["c1", "c2", "c3"], streamError := Option.none } }

/-- Demonstration peer whose stream errors after producing two chunks. -/
def demoStreamErrEnv : AgentEnv :=
  { fetchCard := fun req =>
      if req = publicCardRequest then Except.ok demoPublicCard
      else Except.error "not found",
    sendUnary := fun card _ => Except.ok card.payload,
    stream := fun _ _ => { chunks := ["c1", "c2"], streamError := Option.some "reset" } }

/-- Splitting a character list at commas, the semantics of Python str.split(","):
empty fields are kept, and the empty string splits to one empty field. -/
def splitCommaAux : List Char → List Char → List String
  | [], acc => [String.mk acc.reverse]
  | c :: rest, acc =>
      if c = ',' then String.mk acc.reverse :: splitCommaAux rest []
      else splitCommaAux rest (c :: acc)

/-- ALLOWED_NAMESPACES of tools/k8s_readonly_server/server.py line 36:
`os.getenv("ALLOWED_NAMESPACES", "default").split(",")`, as a function of the
environment variable. -/
def ALLOWED_NAMESPACES (env : Option String) : List String :=
  splitCommaAux (env.getD "default").data []

/-- validate_namespace of tools/k8s_readonly_server/server.py lines 39-45. The Python
body begins with a bare `return` statement, so the function returns None at once for
every input; the allowlist comparison written below that return is dead code, modelled
separately as namespaceAllowlistCheck. -/
def validate_namespace (_allowed : List String) (_ns : String) : Except String Unit :=
  Except.ok ()

/-- The dead allowlist comparison of server.py lines 42-45, as it would behave were it
reachable (quote characters of the message elided). -/
def namespaceAllowlistCheck (allowed : List String) (ns : String) : Except String Unit :=
  if ns ∈ allowed then Except.ok ()
  else Except.error ("Namespace " ++ ns ++ " not allowed. Allowed namespaces: "
    ++ String.intercalate "," allowed)

/-- get_pods of server.py lines 48-98: validate_namespace(namespace) first (a raised
ValueError would propagate), then the Kubernetes list call and formatting on the
requested namespace, modelled as the oracle body. -/
def get_pods (allowed : List String) (body : String → Except String String)
    (ns : String) : Except String String :=
  match validate_namespace allowed ns with
  | Except.error e => Except.error e
  | Except.ok _ => body ns

/-- get_pod_logs of server.py lines 101-133: same validate-then-act shape. -/
def get_pod_logs (allowed : List String) (body : String → Except String String)
    (ns : String) : Except String String :=
  match validate_namespace allowed ns with
  | Except.error e => Except.error e
  | Except.ok _ => body ns

/-- get_events of server.py lines 136-174: same validate-then-act shape. -/
def get_events (allowed : List String) (body : String → Except String String)
    (ns : String) : Except String String :=
  match validate_namespace allowed ns with
  | Except.error e => Except.error e
  | Except.ok _ => body ns

/-- get_deployments of server.py lines 177-223: same validate-then-act shape. -/
def get_deployments (allowed : List String) (body : String → Except String String)
    (ns : String) : Except String String :=
  match validate_namespace allowed ns with
  | Except.error e => Except.error e
  | Except.ok _ => body ns

/-- get_services of server.py lines 226-271: same validate-then-act shape. -/
def get_services (allowed : List String) (body : String → Except String String)
    (ns : String) : Except String String :=
  match validate_namespace allowed ns with
  | Except.error e => Except.error e
  | Except.ok _ => body ns

/-- describe_pod of server.py lines 274-330: same validate-then-act shape. -/
def describe_pod (allowed : List String) (body : String → Except String String)
    (ns : String) : Except String String :=
  match validate_namespace allowed ns with
  | Except.error e => Except.error e
  | Except.ok _ => body ns

end Bridge

namespace Bridge

/-- C2: the context-variable store isolates the token per execution context: after two
requests in distinct contexts c1 ≠ c2 store their distinct nonempty tokens t1 and t2 (in
either interleaving order), create_k8s_client run in context c1 builds its client from
t1 and never from t2, and symmetrically for c2. -/
theorem C2_token_isolation (s : ContextStore) (c1 c2 : Ctx) (t1 t2 : String) (b : Bool)
    (hc : c1 ≠ c2) (ht : t1 ≠ t2) (h1 : t1 ≠ "") (h2 : t2 ≠ "") :
    (create_k8s_client
        (set_auth_context c2 (Option.some t2) (set_auth_context c1 (Option.some t1) s)) c1 b
      = Except.ok (K8sClient.fromToken t1)) ∧
    (create_k8s_client
        (set_auth_context c1 (Option.some t1) (set_auth_context c2 (Option.some t2) s)) c1 b
      = Except.ok (K8sClient.fromToken t1)) ∧
    (create_k8s_client
        (set_auth_context c2 (Option.some t2) (set_auth_context c1 (Option.some t1) s)) c2 b
      = Except.ok (K8sClient.fromToken t2)) ∧
    (create_k8s_client
        (set_auth_context c1 (Option.some t1) (set_auth_context c2 (Option.some t2) s)) c2 b
      = Except.ok (K8sClient.fromToken t2)) := by
  refine ⟨?_, ?_, ?_, ?_⟩ <;>
    simp [create_k8s_client, getToken, set_auth_context, pyTruthyStr, hc, hc.symm, h1, h2]

/-- Witness for C2 at concrete contexts 0 and 1 with tokens alice and bob. -/
theorem C2_token_isolation_witness :
    ("alice" : String) ≠ "bob" ∧
    create_k8s_client
        (set_auth_context 1 (Option.some "bob") (set_auth_context 0 (Option.some "alice") emptyStore))
        0 true
      = Except.ok (K8sClient.fromToken "alice") :=
  ⟨by decide,
   (C2_token_isolation emptyStore 0 1 "alice" "bob" true (by decide) (by decide)
      (by decide) (by decide)).1⟩

/-- C3: with no token in the current execution context, create_k8s_client with
token_auth_only = true always fails with the IdentityRequired ValueError and with
token_auth_only = false always returns the kubeconfig-backed client; with a (nonempty)
token set, the client is built with that token as its bearer credential. -/
theorem C3_client_fallback_policy (s : ContextStore) (c : Ctx) :
    (getToken s c = Option.none →
      create_k8s_client s c true = Except.error identityRequiredMsg ∧
      create_k8s_client s c false = Except.ok K8sClient.fromKubeconfig) ∧
    (∀ t : String, t ≠ "" → getToken s c = Option.some t →
      ∀ b : Bool, create_k8s_client s c b = Except.ok (K8sClient.fromToken t)) := by
  constructor
  · intro h
    constructor <;> simp [create_k8s_client, h, pyTruthyStr]
  · intro t ht h b
    simp [create_k8s_client, h, pyTruthyStr, ht]

/-- Witness for C3: the empty store at context 0, and a store holding token tok. -/
theorem C3_client_fallback_policy_witness :
    (create_k8s_client emptyStore 0 true = Except.error identityRequiredMsg ∧
     create_k8s_client emptyStore 0 false = Except.ok K8sClient.fromKubeconfig) ∧
    create_k8s_client (set_auth_context 0 (Option.some "tok") emptyStore) 0 true
      = Except.ok (K8sClient.fromToken "tok") :=
  ⟨(C3_client_fallback_policy emptyStore 0).1 rfl,
   (C3_client_fallback_policy (set_auth_context 0 (Option.some "tok") emptyStore) 0).2
      "tok" (by decide) (by decide) true⟩

/-- C5: the middleware sets the identity store from the case-insensitive token header at
entry, the wrapped handler runs against exactly that store, the store holds no token
after the request, and the operation log is set-then-clear — the clear happening exactly
once, last, on every path (the statement quantifies over all handlers, so it covers
handlers that return normally and handlers that raise); finally, header extraction is
case-insensitive, checked on an upper-cased header name. -/
theorem C5_middleware_set_clear (s : ContextStore) (c : Ctx) (req : Request)
    (call_next : ContextStore → Except String String) :
    (dispatch s c req call_next).response
        = call_next (set_auth_context c (extractToken req) s) ∧
    getToken (set_auth_context c (extractToken req) s) c = extractToken req ∧
    getToken (dispatch s c req call_next).finalStore c = Option.none ∧
    (dispatch s c req call_next).log
        = [StoreOp.setEntry (extractToken req), StoreOp.clear] ∧
    extractToken { headers := [("X-AUTH-TOKEN", "tok")] } = Option.some "tok" := by
  refine ⟨rfl, ?_, ?_, rfl, by decide⟩
  · simp [getToken, set_auth_context]
  · simp [dispatch, getToken, set_auth_context]

/-- C10: an empty-string token in the identity store is treated exactly like an absent
token: create_k8s_client falls back to the kubeconfig client when token_auth_only is
false and raises when it is true; and no call of create_k8s_client ever constructs a
client with an empty bearer credential. -/
theorem C10_empty_token_like_absent :
    (∀ (s : ContextStore) (c : Ctx), getToken s c = Option.some "" →
      create_k8s_client s c false = Except.ok K8sClient.fromKubeconfig ∧
      create_k8s_client s c true = Except.error identityRequiredMsg) ∧
    (∀ (s : ContextStore) (c : Ctx) (b : Bool) (bearer : String),
      create_k8s_client s c b = Except.ok (K8sClient.fromToken bearer) → bearer ≠ "") := by
  constructor
  · intro s c h
    constructor <;> simp [create_k8s_client, h, pyTruthyStr]
  · intro s c b bearer h hbe
    subst hbe
    rcases hcase : getToken s c with _ | t
    · rcases b with _ | _ <;> simp [create_k8s_client, hcase, pyTruthyStr] at h
    · by_cases ht : t = ""
      · subst ht
        rcases b with _ | _ <;> simp [create_k8s_client, hcase, pyTruthyStr] at h
      · simp [create_k8s_client, hcase, pyTruthyStr, ht] at h

/-- Witness for C10 with the store holding the empty string at context 0. -/
theorem C10_empty_token_like_absent_witness :
    create_k8s_client (set_auth_context 0 (Option.some "") emptyStore) 0 false
        = Except.ok K8sClient.fromKubeconfig ∧
    create_k8s_client (set_auth_context 0 (Option.some "") emptyStore) 0 true
        = Except.error identityRequiredMsg :=
  C10_empty_token_like_absent.1 (set_auth_context 0 (Option.some "") emptyStore) 0 (by decide)

/-- C1: the claim says that the exposed send tools, invoked with wantExtended = true
while a bearer token is available and the peer declares extended-card support, attempt
the extended fetch and use the extended card on success.  Evaluating the code at that
input shows otherwise: the tool wrappers pass use_extended_card in the auth_token
positional slot, so the library flag stays False, the extended fetch is never attempted
and both tools answer with the public card — while the library itself, invoked with the
token and flag in the right slots, would use the extended card. -/
theorem C1_tool_extended_never_attempted :
    tool_send_message_to_agent demoEnv (Option.some "tok") "http://a.test" "hi" true
      = Except.ok "Response from http://a.test:\n\npublic" ∧
    tool_send_streaming_message_to_agent demoEnv (Option.some "tok") "http://a.test" "hi" true
      = Except.ok "Streaming response from http://a.test:\n\npublic" ∧
    resolveCard demoEnv "http://a.test" (PyVal.bool true) false
      = Except.ok { card := demoPublicCard, extendedAttempted := false, usedExtended := false } ∧
    send_message_to_agent demoEnv "http://a.test" "hi" (PyVal.str "tok") true
      = Except.ok "Response from http://a.test:\n\nextended" :=
  ⟨rfl, rfl, rfl, rfl⟩

/-- C4: whenever the public fetch succeeds and the extended fetch is attempted (token
truthy, use_extended_card, card declares support) but fails, the failure is discarded:
the resolution keeps the public card (recording that the attempt was made), and both
the unary and the streaming send proceed exactly as a send with the public card — the
extended-fetch error never reaches the caller. -/
theorem C4_extended_failure_degrades (env : AgentEnv) (agent_url message : String)
    (auth_token : PyVal) (pc : AgentCard) (e : String)
    (hpub : env.fetchCard publicCardRequest = Except.ok pc)
    (hext : env.fetchCard (extendedCardRequest auth_token) = Except.error e)
    (htok : auth_token.truthy = true)
    (hsupp : pc.supports_authenticated_extended_card = true) :
    resolveCard env agent_url auth_token true
      = Except.ok { card := pc, extendedAttempted := true, usedExtended := false } ∧
    send_message_to_agent env agent_url message auth_token true
      = sendWithCard env agent_url message pc ∧
    send_streaming_message_to_agent env agent_url message auth_token true
      = streamWithCard env agent_url message pc := by
  have hres : resolveCard env agent_url auth_token true
      = Except.ok { card := pc, extendedAttempted := true, usedExtended := false } := by
    simp [resolveCard, hpub, hext, htok, hsupp]
  refine ⟨hres, ?_, ?_⟩
  · simp [send_message_to_agent, hres]
  · simp [send_streaming_message_to_agent, hres]

/-- Witness for C4 against the peer whose extended fetch answers HTTP 401. -/
theorem C4_extended_failure_degrades_witness :
    resolveCard demoFailEnv "http://a.test" (PyVal.str "tok") true
      = Except.ok { card := demoPublicCard, extendedAttempted := true, usedExtended := false } ∧
    send_message_to_agent demoFailEnv "http://a.test" "hi" (PyVal.str "tok") true
      = sendWithCard demoFailEnv "http://a.test" "hi" demoPublicCard :=
  ⟨(C4_extended_failure_degrades demoFailEnv "http://a.test" "hi" (PyVal.str "tok")
      demoPublicCard "HTTP 401" rfl rfl rfl rfl).1,
   (C4_extended_failure_degrades demoFailEnv "http://a.test" "hi" (PyVal.str "tok")
      demoPublicCard "HTTP 401" rfl rfl rfl rfl).2.1⟩

/-- C6: when the public-card fetch fails, every unary or streaming send fails with the
AgentUnreachable error carrying the causing detail — and since this holds for every
environment agreeing on that failing fetch, no fallback is taken and the message is
never sent (the send and stream components of the environment are arbitrary). -/
theorem C6_public_fetch_fatal (env : AgentEnv) (agent_url message : String)
    (auth_token : PyVal) (use_extended_card : Bool) (e : String)
    (hpub : env.fetchCard publicCardRequest = Except.error e) :
    send_message_to_agent env agent_url message auth_token use_extended_card
      = Except.error (A2AError.agentUnreachable
          ("Failed to fetch agent card from " ++ agent_url ++ ": " ++ e)) ∧
    send_streaming_message_to_agent env agent_url message auth_token use_extended_card
      = Except.error (A2AError.agentUnreachable
          ("Failed to fetch agent card from " ++ agent_url ++ ": " ++ e)) := by
  constructor
  · simp [send_message_to_agent, resolveCard, hpub]
  · simp [send_streaming_message_to_agent, resolveCard, hpub]

/-- Witness for C6 against the unreachable peer answering HTTP 404. -/
theorem C6_public_fetch_fatal_witness :
    send_message_to_agent demoDownEnv "http://a.test" "hi" (PyVal.str "tok") false
      = Except.error (A2AError.agentUnreachable
          "Failed to fetch agent card from http://a.test: HTTP 404") :=
  (C6_public_fetch_fatal demoDownEnv "http://a.test" "hi" (PyVal.str "tok") false
      "HTTP 404" rfl).1

/-- C7: the streaming send is all-or-nothing.  For any resolution that selected a card:
if the peer stream completes without error after producing its chunks, the call returns
the single aggregate containing exactly those chunks joined in arrival order; if the
stream terminates with an error after any prefix of chunks, the call fails as the
dispatch error carrying only that error — none of the received chunks appear in the
result. -/
theorem C7_streaming_all_or_nothing (env : AgentEnv) (agent_url message : String)
    (auth_token : PyVal) (use_extended_card : Bool) (res : Resolution)
    (hres : resolveCard env agent_url auth_token use_extended_card = Except.ok res) :
    ((env.stream res.card message).streamError = Option.none →
      send_streaming_message_to_agent env agent_url message auth_token use_extended_card
        = Except.ok ("Streaming response from " ++ agent_url ++ ":\n\n"
            ++ String.intercalate "\n\n" (env.stream res.card message).chunks)) ∧
    (∀ e : String, (env.stream res.card message).streamError = Option.some e →
      send_streaming_message_to_agent env agent_url message auth_token use_extended_card
        = Except.error (A2AError.dispatchFailed
            ("Failed to send streaming message to agent: " ++ e))) := by
  constructor
  · intro h
    simp [send_streaming_message_to_agent, hres, streamWithCard, h]
  · intro e h
    simp [send_streaming_message_to_agent, hres, streamWithCard, h]

/-- Witness for C7: the peer streaming [c1, c2, c3] then closing yields the ordered
aggregate, and the peer erroring after [c1, c2] yields the dispatch failure with no
chunk in the result. -/
theorem C7_streaming_all_or_nothing_witness :
    send_streaming_message_to_agent demoStreamOkEnv "http://a.test" "hi" PyVal.none false
      = Except.ok "Streaming response from http://a.test:\n\nc1\n\nc2\n\nc3" ∧
    send_streaming_message_to_agent demoStreamErrEnv "http://a.test" "hi" PyVal.none false
      = Except.error (A2AError.dispatchFailed
          "Failed to send streaming message to agent: reset") :=
  ⟨(C7_streaming_all_or_nothing demoStreamOkEnv "http://a.test" "hi" PyVal.none false
      { card := demoPublicCard, extendedAttempted := false, usedExtended := false }
      rfl).1 rfl,
   (C7_streaming_all_or_nothing demoStreamErrEnv "http://a.test" "hi" PyVal.none false
      { card := demoPublicCard, extendedAttempted := false, usedExtended := false }
      rfl).2 "reset" rfl⟩

/-- C8 counterexample: the claim says the extended-descriptor fetch targets a path
distinct from the public well-known discovery path; at the concrete token tok the
extended fetch targets exactly the public path. -/
theorem C8_counterexample_same_path :
    (extendedCardRequest (PyVal.str "tok")).path = publicCardRequest.path :=
  rfl

/-- C8 amended: every extended-descriptor fetch targets EXTENDED_AGENT_CARD_PATH,
which equals the public well-known discovery path rather than a distinct authenticated
path, and presents the token as a Bearer credential in the Authorization header. -/
theorem C8_extended_request_shape (auth_token : PyVal) :
    (extendedCardRequest auth_token).path = EXTENDED_AGENT_CARD_PATH ∧
    EXTENDED_AGENT_CARD_PATH = PUBLIC_AGENT_CARD_PATH ∧
    (extendedCardRequest auth_token).headers
      = [("Authorization", "Bearer " ++ auth_token.interp)] :=
  ⟨rfl, rfl, rfl⟩

/-- C9: validate_namespace returns without raising for every namespace and every
allowlist (its Python body starts with an unconditional return, making the allowlist
comparison below unreachable), so each of the six read-only tools proceeds to its
Kubernetes call on the requested namespace regardless of ALLOWED_NAMESPACES — even on
a namespace the dead allowlist comparison would have rejected under the default
environment. -/
theorem C9_validate_namespace_noop :
    (∀ (allowed : List String) (ns : String),
      validate_namespace allowed ns = Except.ok ()) ∧
    (∀ (allowed : List String) (body : String → Except String String) (ns : String),
      get_pods allowed body ns = body ns ∧
      get_pod_logs allowed body ns = body ns ∧
      get_events allowed body ns = body ns ∧
      get_deployments allowed body ns = body ns ∧
      get_services allowed body ns = body ns ∧
      describe_pod allowed body ns = body ns) ∧
    validate_namespace (ALLOWED_NAMESPACES Option.none) "kube-system" = Except.ok () ∧
    namespaceAllowlistCheck (ALLOWED_NAMESPACES Option.none) "kube-system"
      = Except.error "Namespace kube-system not allowed. Allowed namespaces: default" :=
  ⟨fun _ _ => rfl,
   fun _ _ _ => ⟨rfl, rfl, rfl, rfl, rfl, rfl⟩,
   rfl,
   rfl⟩

end Bridge
